import Mathlib

/-!
# RealCarrier — formal model of the provider / cache / lookup core

Shallow embedding, in Lean 4, of the parts of the `lnptool` package that the
specification's claims are about:

* `lnptool/cache.py` — the SQLite-backed TTL result cache (`Cache.get`,
  `Cache.set`, `Cache.clear_expired`);
* `lnptool/provider.py` — the provider registry (`ProviderRegistry`), the
  error taxonomy, and `LookupProvider.validate_phone_number`;
* `lnptool/phone_utils.py` — `format_phone_number`;
* `lnptool/telnyx_api.py` / `lnptool/twilio_api.py` — the token-bucket
  rate limiter (`_check_rate_limit`) and the HTTP retry configuration of
  `_create_session`;
* `lnptool/lookup.py` — the orchestrator (`LookupService.lookup_number`,
  `LookupService.batch_lookup`).

Python floats and timestamps are modelled as exact rationals (`ℚ`); Python
exceptions are modelled by an explicit error type threaded through `Except`.
-/

/-- The Python exceptions that occur in the embedded code paths.  The five
classified kinds (`configurationError` … `lookupError`) are the exception
classes defined in `lnptool/provider.py`; the first four are builtin Python
exceptions raised by the embedded code. -/
inductive PyErr where
  | attributeError
  | typeError
  | runtimeError
  | valueError
  | configurationError
  | authenticationError
  | rateLimitError
  | networkError
  | lookupError
deriving DecidableEq, Repr

/-- The classified error taxonomy of `provider.py` (subclasses of the
`LookupError` base class defined there), as opposed to untyped builtin
Python exceptions. -/
def PyErr.isClassified : PyErr → Bool
  | .configurationError => true
  | .authenticationError => true
  | .rateLimitError => true
  | .networkError => true
  | .lookupError => true
  | _ => false

/-! ## Result cache (`lnptool/cache.py`)

The table `lookup_results` has columns `phone_number TEXT PRIMARY KEY`,
`result TEXT`, `timestamp REAL`.  We model the table as an association list
of rows (unique keys, per the primary key), the stored `result` text as a
`String`, and `json.loads` as a partial decode function `dec` supplied by
the caller (it returns `Except`, `.error` standing for a raised
`json.JSONDecodeError`).  `time.time()` and the config value
`api_cache_ttl` are passed explicitly at each call, mirroring the fact that
the Python code reads both at call time. -/

/-- One row of the `lookup_results` table. -/
structure CacheRow where
  key : String
  payload : String
  timestamp : ℚ
deriving DecidableEq, Repr

/-- The cache store: the rows of the `lookup_results` table. -/
def CacheStore := List CacheRow

/-- `Cache.get` (cache.py lines 60-101).  Reads `cache_ttl` from the current
configuration (`ttl` argument, read at call time), fetches the row for
`phone_number`, and:
* absent row → `None`;
* `current_time - timestamp <= cache_ttl` → `json.loads(result_json)`,
  where a `JSONDecodeError` is caught and falls through to `return None`;
* otherwise (expired) → `None`.
`sqlite3.Error` is likewise caught and mapped to `None`; the function
never propagates an exception, which the `Option` return type records. -/
def Cache.get {α : Type} (dec : String → Except String α) (store : CacheStore)
    (key : String) (now ttl : ℚ) : Option α :=
  match store.find? (fun row => row.key = key) with
  | none => none
  | some row =>
    if now - row.timestamp ≤ ttl then
      match dec row.payload with
      | .ok v => some v
      | .error _ => none
    else
      none

/-- `Cache.set` (cache.py lines 103-133): `INSERT OR REPLACE` of the row for
`phone_number` with the serialized result and `time.time()`. -/
def Cache.set (store : CacheStore) (key : String) (payload : String) (now : ℚ) :
    CacheStore :=
  CacheRow.mk key payload now :: store.filter (fun row => row.key ≠ key)

/-- `Cache.clear_expired` (cache.py lines 156-181): computes
`expiry_time = time.time() - cache_ttl` and executes
`DELETE FROM lookup_results WHERE timestamp < expiry_time`, returning the
number of deleted rows (`cursor.rowcount`). -/
def Cache.clear_expired (store : CacheStore) (now ttl : ℚ) : CacheStore × Nat :=
  let kept := store.filter (fun row => ¬ row.timestamp < now - ttl)
  (kept, store.length - kept.length)

/-! ## Phone number normalization -/

/-- Python `str.strip()`: remove leading and trailing whitespace. -/
def pyStrip (l : List Char) : List Char :=
  pyStripEnd (l.dropWhile Char.isWhitespace)
where
  /-- drop trailing whitespace -/
  pyStripEnd : List Char → List Char
    | [] => []
    | c :: rest =>
      match pyStripEnd rest with
      | [] => if c.isWhitespace then [] else [c]
      | r => c :: r

/-- phone_utils.py line 23: `phone.strip().replace(' ', '').replace('.', '')`. -/
def stripSpacesDots (l : List Char) : List Char :=
  (pyStrip l).filter (fun c => !(c = ' ' || c = '.'))

/-- phone_utils.py lines 26-27: drop a single leading `+` if present. -/
def dropLeadingPlus : List Char → List Char
  | [] => []
  | c :: rest => if c = '+' then rest else c :: rest

/-- Consume exactly `n` digit characters (`\d{n}` in the patterns of
phone_utils.py), returning them and the remainder. -/
def takeDigits : Nat → List Char → Option (List Char × List Char)
  | 0, l => some ([], l)
  | _ + 1, [] => none
  | n + 1, c :: l =>
    if c.isDigit then
      match takeDigits n l with
      | none => none
      | some (d, r) => some (c :: d, r)
    else
      none

/-- An optional literal character (`\(?`, `\)?` in the patterns): consumed
iff it is the next character.  Deterministic because in every pattern the
construct that follows matches a disjoint character class. -/
def optChar (c : Char) : List Char → List Char
  | [] => []
  | x :: r => if x = c then r else x :: r

/-- `[-\s]?`: an optional dash-or-whitespace separator. -/
def optSep : List Char → List Char
  | [] => []
  | x :: r => if x = '-' || x.isWhitespace then r else x :: r

/-- Pattern 1 of phone_utils.py:
`^\(?(\d{3})\)?[-\s]?(\d{3})[-\s]?(\d{4})$`. -/
def matchPat1 (l : List Char) : Option (List Char) :=
  match takeDigits 3 (optChar '(' l) with
  | none => none
  | some (a, l) =>
    match takeDigits 3 (optSep (optChar ')' l)) with
    | none => none
    | some (b, l) =>
      match takeDigits 4 (optSep l) with
      | none => none
      | some (c, l) => if l = [] then some (a ++ b ++ c) else none

/-- Pattern 2: `^\((\d{3})\)(\d{7})$`.  The special handling at
phone_utils.py lines 44-49 splits the 7 trailing digits into 3+4 and
concatenates `area_code ++ prefix3 ++ line4`, i.e. the plain concatenation
of the two groups. -/
def matchPat2 (l : List Char) : Option (List Char) :=
  match l with
  | [] => none
  | c0 :: l =>
    if c0 = '(' then
      match takeDigits 3 l with
      | none => none
      | some (a, l) =>
        match l with
        | [] => none
        | c1 :: l =>
          if c1 = ')' then
            match takeDigits 7 l with
            | none => none
            | some (b, l) => if l = [] then some (a ++ b) else none
          else none
    else none

/-- Pattern 3: `^1\(?(\d{3})\)?[-\s]?(\d{3})[-\s]?(\d{4})$` — a literal `1`
followed by the body of pattern 1. -/
def matchPat3 (l : List Char) : Option (List Char) :=
  match l with
  | [] => none
  | c0 :: l => if c0 = '1' then matchPat1 l else none

/-- Pattern 4: `^(\d{3})(\d{3})(\d{4})$` — ten digits. -/
def matchPat4 (l : List Char) : Option (List Char) :=
  match takeDigits 10 l with
  | none => none
  | some (d, l) => if l = [] then some d else none

/-- Pattern 5: `^1(\d{3})(\d{3})(\d{4})$`. -/
def matchPat5 (l : List Char) : Option (List Char) :=
  match l with
  | [] => none
  | c0 :: l => if c0 = '1' then matchPat4 l else none

/-- `[-\.]`: a mandatory dash-or-dot separator (pattern 6). -/
def reqSep6 : List Char → Option (List Char)
  | [] => none
  | x :: r => if x = '-' || x = '.' then some r else none

/-- Pattern 6: `^(\d{3})[-\.](\d{3})[-\.](\d{4})$`. -/
def matchPat6 (l : List Char) : Option (List Char) :=
  match takeDigits 3 l with
  | none => none
  | some (a, l) =>
    match reqSep6 l with
    | none => none
    | some l =>
      match takeDigits 3 l with
      | none => none
      | some (b, l) =>
        match reqSep6 l with
        | none => none
        | some l =>
          match takeDigits 4 l with
          | none => none
          | some (c, l) => if l = [] then some (a ++ b ++ c) else none

/-- Pattern 7: `^1[-\s]?(\d{3})[-\s]?(\d{3})[-\s]?(\d{4})$`. -/
def matchPat7 (l : List Char) : Option (List Char) :=
  match l with
  | [] => none
  | c0 :: l =>
    if c0 = '1' then
      match takeDigits 3 (optSep l) with
      | none => none
      | some (a, l) =>
        match takeDigits 3 (optSep l) with
        | none => none
        | some (b, l) =>
          match takeDigits 4 (optSep l) with
          | none => none
          | some (c, l) => if l = [] then some (a ++ b ++ c) else none
    else none

/-- The fallback of phone_utils.py lines 54-65: extract every digit, drop a
leading `1` from an 11-digit result, and require exactly 10 digits
(otherwise `ValueError`, modelled as `none`). -/
def digitsFallback (l : List Char) : Option (List Char) :=
  let digits := l.filter Char.isDigit
  let digits :=
    if digits.length = 11 ∧ digits.head? = some '1' then digits.tail else digits
  if digits.length = 10 then some digits else none

/-- `format_phone_number` (phone_utils.py lines 3-65).  Empty input raises
`ValueError` (modelled as `none`); otherwise the input is stripped of
spaces and dots, a leading `+` is removed, the seven patterns are tried in
order, and finally the all-digits fallback runs.  The return value is the
canonical 10-digit form. -/
def format_phone_number (input : List Char) : Option (List Char) :=
  if input = [] then none
  else
    let p := dropLeadingPlus (stripSpacesDots input)
    match matchPat1 p with
    | some r => some r
    | none =>
      match matchPat2 p with
      | some r => some r
      | none =>
        match matchPat3 p with
        | some r => some r
        | none =>
          match matchPat4 p with
          | some r => some r
          | none =>
            match matchPat5 p with
            | some r => some r
            | none =>
              match matchPat6 p with
              | some r => some r
              | none =>
                match matchPat7 p with
                | some r => some r
                | none => digitsFallback p

/-- `LookupProvider.validate_phone_number` (provider.py lines 244-269):
keep only digits, drop the leading `1` of an 11-digit result, require 10
digits (`ValueError` otherwise, modelled as `none`), and return the E.164
form `+1` ++ digits. -/
def validate_phone_number (input : List Char) : Option (List Char) :=
  let cleaned := input.filter Char.isDigit
  let cleaned :=
    if cleaned.length = 11 ∧ cleaned.head? = some '1' then cleaned.tail
    else cleaned
  if cleaned.length = 10 then some ('+' :: '1' :: cleaned) else none

/-! ## Provider registry (`lnptool/provider.py`, class `ProviderRegistry`)

The registry's class-level mutable state is modelled as an explicit record.
Provider instances are identified by their id; `configured` gives the
result of each instance's `is_configured()` (instances whose construction
fails, and instances whose `is_configured()` raises, are treated as not
configured, exactly as `get_all_provider_instances` /
`get_configured_providers` do).  The ≤60s memoization of
`get_configured_providers` replays the booleans recorded at the last
recomputation; we model the recomputation path, i.e. a snapshot that
agrees with the current `configured` predicate. -/

structure RegistryState where
  /-- keys of `cls._providers`, in registration order -/
  providers : List String
  /-- `cls._priority` -/
  priority : List String
  /-- `is_configured()` of the instance registered under each id -/
  configured : String → Bool

/-- The ids collected by `ProviderRegistry.get_configured_providers`
(provider.py lines 415-450): the registered providers whose instances
report `is_configured()`, in instance-dictionary order. -/
def ProviderRegistry.configured_ids (st : RegistryState) : List String :=
  st.providers.filter st.configured

/-- `ProviderRegistry.get_priority` (provider.py lines 471-483): the
explicit priority list if one was set, otherwise all registered ids. -/
def ProviderRegistry.get_priority (st : RegistryState) : List String :=
  if st.priority.isEmpty then st.providers else st.priority

/-- `ProviderRegistry.get_provider_by_priority` (provider.py lines
485-505): `None` if no provider is configured; else the first id in
priority order that is configured; else (`next(iter(configured.values()))`)
the first configured provider. -/
def ProviderRegistry.get_provider_by_priority (st : RegistryState) :
    Option String :=
  let conf := ProviderRegistry.configured_ids st
  if conf.isEmpty then none
  else
    match (ProviderRegistry.get_priority st).find? (fun pid => conf.contains pid) with
    | some pid => some pid
    | none => conf.head?

/-- `ProviderRegistry.set_priority` (provider.py lines 452-469): validate
that every id in the list is registered; if any is unknown raise
`ValueError` (before any mutation, so the stored priority is untouched),
otherwise store a copy of the list.  Returns the post-call registry state
together with the raised exception, if any. -/
def ProviderRegistry.set_priority (st : RegistryState)
    (priority_list : List String) : RegistryState × Option PyErr :=
  let unknown := priority_list.filter (fun pid => !(st.providers.contains pid))
  if unknown.isEmpty then
    ({ st with priority := priority_list }, none)
  else
    (st, some PyErr.valueError)

/-- `set_provider_priority` (provider_manager.py lines 178-198): calls
`ProviderRegistry.set_priority`, returns `True` on success and `False` if
it raised `ValueError` (the saving of the config file is I/O and elided). -/
def set_provider_priority (st : RegistryState) (priority_list : List String) :
    RegistryState × Bool :=
  match ProviderRegistry.set_priority st priority_list with
  | (st2, none) => (st2, true)
  | (st2, some _) => (st2, false)

/-! ## Token-bucket rate limiter
(`telnyx_api.py` lines 120-147 and `twilio_api.py` lines 132-159)

The two `_check_rate_limit` methods are textually identical and both files
define `RATE_LIMIT_REQUESTS = 10`, `RATE_LIMIT_WINDOW = 1.0`.  The bucket
state (`_rate_limit_tokens`, `_rate_limit_last_check`) is mutated under the
per-instance lock; we model one execution of the critical section as a pure
step function of the state and the current time.  Python floats are
modelled as exact rationals. -/

/-- `RATE_LIMIT_REQUESTS` of telnyx_api.py / twilio_api.py: the bucket
capacity and the refill rate per window. -/
def RATE_LIMIT_REQUESTS : ℚ := 10

/-- `RATE_LIMIT_WINDOW` of telnyx_api.py / twilio_api.py (seconds). -/
def RATE_LIMIT_WINDOW : ℚ := 1

/-- The per-provider bucket state: `_rate_limit_tokens` and
`_rate_limit_last_check`. -/
structure RateBudget where
  tokens : ℚ
  lastCheck : ℚ
deriving DecidableEq, Repr

/-- The refill computation of `_check_rate_limit`:
`min(cap, tokens + time_passed * (cap / window))`. -/
def rateRefill (cap window : ℚ) (st : RateBudget) (now : ℚ) : ℚ :=
  min cap (st.tokens + (now - st.lastCheck) * (cap / window))

/-- One execution of `_check_rate_limit`'s critical section: refill capped
at the capacity, update `_rate_limit_last_check`; if fewer than one token
is available, sleep for `(1 - tokens) * (window / cap)` seconds, then set
the count to `1`; finally consume one token.  Returns the new bucket state
and the slept duration. -/
def check_rate_limit (cap window : ℚ) (st : RateBudget) (now : ℚ) :
    RateBudget × ℚ :=
  if rateRefill cap window st now < 1 then
    ({ tokens := 1 - 1, lastCheck := now },
     (1 - rateRefill cap window st now) * (window / cap))
  else
    ({ tokens := rateRefill cap window st now - 1, lastCheck := now }, 0)

/-! ## HTTP retry configuration (`telnyx_api.py` lines 30-35 and 89-118)

`TelnyxAPI._create_session` mounts a `urllib3.util.retry.Retry` strategy on
the HTTP session; these constants are its parameters.  They are the only
retry mechanism in the code: retrying happens inside the HTTP adapter,
keyed on response status codes, not in the orchestrator and not on the
classified exception taxonomy. -/

/-- `MAX_RETRIES` (telnyx_api.py line 32), passed as `Retry(total=...)`. -/
def MAX_RETRIES : Nat := 3

/-- `RETRY_BACKOFF_FACTOR` (telnyx_api.py line 34): exponential backoff
factor of the session's retry strategy. -/
def RETRY_BACKOFF_FACTOR : ℚ := 1 / 2

/-- `RETRY_STATUS_FORCELIST` (telnyx_api.py line 35): the response status
codes the mounted `Retry` strategy retries on. -/
def RETRY_STATUS_FORCELIST : List Nat := [429, 500, 502, 503, 504]

/-! ## Lookup orchestrator (`lnptool/lookup.py`, class `LookupService`)

`lookup.py` imports `LookupResult` from `telnyx_api`, which re-exports the
plain (non-pydantic) `LookupResult` class of `provider.py`.  Several
attribute accesses and constructor calls in `lookup.py` do not exist on
that class; each such runtime fault is embedded as its own definition so
the control flow of `lookup_number` / `batch_lookup` can be transcribed
statement by statement. -/

/-- `provider.py` lines 20-110, class `LookupResult`: the result record the
adapters produce (`TelnyxAPI._parse_response` fills `phone_number`,
`carrier`, `carrier_type`, `portable`, `city`, `state`, `rate_center`,
`lata`, `line_type`, `provider`, `raw_data`).  It has *no* `status`
attribute, no `parse_obj`, no `dict()`. -/
structure ResultP where
  phone_number : String
  carrier : Option String := none
  carrier_type : Option String := none
  portable : Option Bool := none
  city : Option String := none
  state : Option String := none
  rate_center : Option String := none
  lata : Option String := none
  line_type : Option String := none
  provider : Option String := none
  timestamp : ℚ := 0
deriving DecidableEq, Repr

/-- A JSON object as returned by `json.loads` on a cached row (field name →
stored text). -/
def PyDict := List (String × String)

/-- lookup.py line 50 evaluates `TelnyxAPI._format_phone_number(...)`.  No
class in the repository (`TelnyxAPI`, its base `LookupProvider`, or
`object`) defines an attribute `_format_phone_number`, so the attribute
lookup raises `AttributeError` — before anything else in
`lookup_number` runs, and outside every `try` block of the method. -/
def TelnyxAPI_format_phone_number (_phone : String) : Except PyErr String :=
  Except.error PyErr.attributeError

/-- lookup.py line 68 calls `LookupResult.parse_obj(...)`.
`provider.LookupResult` is a plain class, not a pydantic model, and defines
no `parse_obj`, so the call raises `AttributeError` (which line 69 catches). -/
def LookupResult_parse_obj (_data : PyDict) : Except PyErr ResultP :=
  Except.error PyErr.attributeError

/-- `LookupService._sanitize_cached_data` (lookup.py lines 112-178) coerces
the fields of the cached dict to the expected Python types in place.  In
this model the dict values are already strings, so the coercions are the
identity; the result is consumed only by `LookupResult_parse_obj`, which
raises regardless of its argument. -/
def sanitize_cached_data (data : PyDict) : PyDict := data

/-- lookup.py line 80 reads `result.status` on the adapter's return value.
`provider.LookupResult` defines no `status` attribute, so the access raises
`AttributeError` (caught by the `except` at line 88). -/
def ResultP.status_attr (_r : ResultP) : Except PyErr String :=
  Except.error PyErr.attributeError

/-- The error-result constructions at lookup.py lines 91-110 and 227-246:
`LookupResult(phone_number=..., country_code=..., carrier=CarrierInfo(...),
portability=PortabilityInfo(...), status=..., lookup_time=...,
request_id=...)`. `provider.LookupResult.__init__` accepts none of the
keyword arguments `country_code`, `portability`, `status`, `lookup_time`,
`request_id`, so the call raises `TypeError`. -/
def errorLookupResult : Except PyErr ResultP :=
  Except.error PyErr.typeError

/-- The state a `LookupService` call runs against: the `use_cache` flag,
the SQLite cache store with its JSON decoder, whether an API key is
configured (`config.is_configured()`), and the adapter
(`self.api.lookup_number`, here an arbitrary fake so that invocations can
be counted). -/
structure LookupServiceState where
  use_cache : Bool
  store : CacheStore
  decodeDict : String → Except String PyDict
  configured : Bool
  adapter : String → Except PyErr ResultP

/-- lookup.py lines 73-110, the API branch of `lookup_number`: invoke the
adapter; on a result, read `result.status` (which raises — see
`ResultP.status_attr`); any exception in the `try` block reaches the
`except` at line 88, whose error-result construction itself raises
`TypeError`.  On the (unreachable) non-error-status path the result would
be written through to the cache via `result.dict()` — also undefined on
`provider.LookupResult` — and returned.  Returns the outcome and the
number of adapter invocations. -/
def apiLookup (st : LookupServiceState) (formatted : String) :
    Except PyErr ResultP × Nat :=
  match st.adapter formatted with
  | .ok result =>
    (match ResultP.status_attr result with
     | .ok s =>
       if s.startsWith "error:" then (.ok result, 1)
       else (.ok result, 1)
     | .error _ =>
       match errorLookupResult with
       | .ok r => (.ok r, 1)
       | .error e => (.error e, 1))
  | .error _ =>
    match errorLookupResult with
    | .ok r => (.ok r, 1)
    | .error e => (.error e, 1)

/-- `LookupService.lookup_number` (lookup.py lines 39-110), one call, at
time `now` with configured ttl `ttl`:
1. line 50: `TelnyxAPI._format_phone_number` — undefined, raises;
2. lines 53-55: no API key → `RuntimeError`;
3. lines 58-71: cache probe; on a hit, sanitize and `parse_obj` inside
   `try` — any exception resets `cache_hit` and falls through to the API;
4. lines 73-110: the API branch (`apiLookup`).
Returns the outcome (`.error e` = the call raised `e`) and the number of
adapter invocations. -/
def LookupService.lookup_number (st : LookupServiceState) (phone : String)
    (now ttl : ℚ) : Except PyErr ResultP × Nat :=
  match TelnyxAPI_format_phone_number phone with
  | .error e => (.error e, 0)
  | .ok formatted =>
    if ¬ st.configured then (.error .runtimeError, 0)
    else
      match (if st.use_cache then
               Cache.get st.decodeDict st.store formatted now ttl
             else none) with
      | some cached =>
        (match LookupResult_parse_obj (sanitize_cached_data cached) with
         | .ok r => (.ok r, 0)
         | .error _ => apiLookup st formatted)
      | none => apiLookup st formatted

/-- lookup.py line 201: `unique_numbers = list(set(numbers))`.  The
iteration order of a Python `set` is implementation-defined; it is
modelled with `List.dedup` (one occurrence of each distinct element).  The
claims below depend only on which unique elements appear and on the length
of the list, not on their order. -/
def uniqueNumbers (numbers : List String) : List String :=
  numbers.dedup

/-- The loop body of `batch_lookup` (lookup.py lines 213-252): each number
is looked up inside `try`; on an exception the `except` at line 222 builds
an error result (lines 227-246) — a construction that itself raises
`TypeError`, which nothing catches, aborting the whole loop.  (The
inter-request `time.sleep` pacing and the progress bar are I/O, elided.)
Accumulates the results and the total number of adapter invocations. -/
def batchLoop (st : LookupServiceState) (now ttl : ℚ) :
    List String → List ResultP → Nat → Except PyErr (List ResultP) × Nat
  | [], acc, calls => (.ok acc.reverse, calls)
  | n :: rest, acc, calls =>
    match LookupService.lookup_number st n now ttl with
    | (.ok r, k) => batchLoop st now ttl rest (r :: acc) (calls + k)
    | (.error _, k) =>
      match errorLookupResult with
      | .ok r => batchLoop st now ttl rest (r :: acc) (calls + k)
      | .error e => (.error e, calls + k)

/-- `LookupService.batch_lookup` (lookup.py lines 180-259): no API key →
`RuntimeError`; otherwise iterate over `list(set(numbers))`, collecting one
outcome per unique number (CSV export elided).  Returns `.error e` when the
loop raised `e`, `.ok results` otherwise, plus the number of adapter
invocations. -/
def LookupService.batch_lookup (st : LookupServiceState)
    (numbers : List String) (now ttl : ℚ) : Except PyErr (List ResultP) × Nat :=
  if ¬ st.configured then (.error .runtimeError, 0)
  else batchLoop st now ttl (uniqueNumbers numbers) [] 0

/-! ## Helper lemmas -/

/-- A digit character differs from any non-digit character. -/
theorem ne_of_digit {c d : Char} (hc : c.isDigit = true)
    (hd : d.isDigit = false) : c ≠ d := by
  intro h
  rw [h, hd] at hc
  exact Bool.noConfusion hc

/-- Digit characters are not whitespace. -/
theorem ws_of_digit {c : Char} (hc : c.isDigit = true) :
    c.isWhitespace = false := by
  have h1 := ne_of_digit hc (d := ' ') (by decide)
  have h2 := ne_of_digit hc (d := '\t') (by decide)
  have h3 := ne_of_digit hc (d := '\r') (by decide)
  have h4 := ne_of_digit hc (d := '\n') (by decide)
  simp [Char.isWhitespace, h1, h2, h3, h4]

/-- A digit character is not a space. -/
theorem digit_ne_space {c : Char} (hc : c.isDigit = true) : (c = ' ') = False :=
  eq_false (ne_of_digit hc (by decide))

/-- A digit character is not a dot. -/
theorem digit_ne_dot {c : Char} (hc : c.isDigit = true) : (c = '.') = False :=
  eq_false (ne_of_digit hc (by decide))

/-- A digit character is not a plus sign. -/
theorem digit_ne_plus {c : Char} (hc : c.isDigit = true) : (c = '+') = False :=
  eq_false (ne_of_digit hc (by decide))

/-- A digit character is not an opening parenthesis. -/
theorem digit_ne_lparen {c : Char} (hc : c.isDigit = true) : (c = '(') = False :=
  eq_false (ne_of_digit hc (by decide))

/-- A digit character is not a closing parenthesis. -/
theorem digit_ne_rparen {c : Char} (hc : c.isDigit = true) : (c = ')') = False :=
  eq_false (ne_of_digit hc (by decide))

/-- A digit character is not a dash. -/
theorem digit_ne_dash {c : Char} (hc : c.isDigit = true) : (c = '-') = False :=
  eq_false (ne_of_digit hc (by decide))

/-- An element found by `find?` is still found after a `filter` that keeps
it: filtering only removes elements, and removes none located before the
first match. -/
theorem find?_of_filter_kept {α : Type} (l : List α) (p q : α → Bool) (a : α)
    (h : l.find? p = some a) (hq : q a = true) :
    (l.filter q).find? p = some a := by
  induction l with
  | nil => simp at h
  | cons x xs ih =>
    by_cases hx : p x
    · rw [List.find?_cons_of_pos _ hx] at h
      injection h with h
      subst h
      rw [List.filter_cons, if_pos hq, List.find?_cons_of_pos _ hx]
    · rw [List.find?_cons_of_neg _ (by simpa using hx)] at h
      rw [List.filter_cons]
      split
      · rw [List.find?_cons_of_neg _ (by simpa using hx)]
        exact ih h
      · exact ih h

/-- One evaluation step shared by the orchestrator claims: every call to
`LookupService.lookup_number` stops at line 50 (`TelnyxAPI._format_phone_number`
is undefined), raising `AttributeError` after zero adapter invocations. -/
theorem lookup_number_run (st : LookupServiceState) (phone : String)
    (now ttl : ℚ) :
    LookupService.lookup_number st phone now ttl =
      (Except.error PyErr.attributeError, 0) := rfl

/-! ## Claim theorems -/

/-- C5 (counterexample): the claim says `Cache.get` returns empty *exactly*
when the key is absent or the entry's age exceeds the ttl.  Here the key
is present, its age `0 - 0` does not exceed the ttl `86400`, and yet `get`
returns `none`, because the stored payload fails to deserialize
(cache.py lines 91-94 catch the `JSONDecodeError` and fall through to
`return None`). -/
theorem cache_get_corrupt_counterexample :
    Cache.get (fun s => if s = "corrupt" then Except.error "bad" else Except.ok 0)
      [CacheRow.mk "7132623300" "corrupt" 0] "7132623300" 0 86400 = none ∧
    ([CacheRow.mk "7132623300" "corrupt" 0] : CacheStore).find?
      (fun r => r.key = "7132623300") = some (CacheRow.mk "7132623300" "corrupt" 0) ∧
    ¬ ((86400 : ℚ) < 0 - 0) := by
  refine ⟨?_, ?_, by norm_num⟩
  · simp [Cache.get, List.find?]
  · simp [List.find?]

/-- C5 (amended): `Cache.get` returns empty exactly when the key is absent,
or the entry's age strictly exceeds the ttl, or the stored payload fails to
deserialize; the ttl is the one passed at call time (read from the current
configuration), so instantiating `ttl` below an entry's age makes the same
`get` return empty. -/
theorem cache_get_none_iff {α : Type} (dec : String → Except String α)
    (store : CacheStore) (key : String) (now ttl : ℚ) :
    Cache.get dec store key now ttl = none ↔
      store.find? (fun r => r.key = key) = none ∨
      ∃ row, store.find? (fun r => r.key = key) = some row ∧
        (ttl < now - row.timestamp ∨ ∃ msg, dec row.payload = Except.error msg) := by
  cases hfind : store.find? (fun r => r.key = key) with
  | none => simp [Cache.get, hfind]
  | some row =>
    simp only [Cache.get, hfind, Option.some.injEq, reduceCtorEq, false_or,
      exists_eq_left']
    split
    · rename_i hle
      cases hdec : dec row.payload with
      | ok v =>
        have hnlt := not_lt.mpr hle
        simp [hdec, hnlt]
      | error m => simp [hdec]
    · rename_i hgt
      have hlt := not_le.mp hgt
      simp [hlt]

/-- C6: a stored payload that fails to deserialize is treated by
`Cache.get` as a cache miss — the `JSONDecodeError` is caught and the call
returns `None` (never propagating a failure into the calling lookup, as the
total `Option` return of the embedded `Cache.get` records). -/
theorem cache_corrupt_payload_is_miss {α : Type}
    (dec : String → Except String α) (store : CacheStore) (key : String)
    (now ttl : ℚ) (row : CacheRow) (msg : String)
    (hfind : store.find? (fun r => r.key = key) = some row)
    (hdec : dec row.payload = Except.error msg) :
    Cache.get dec store key now ttl = none := by
  simp only [Cache.get, hfind]
  split
  · rw [hdec]
  · rfl

/-- C6 (witness): a concrete cache with an undecodable payload. -/
theorem cache_corrupt_payload_is_miss_witness :
    Cache.get (fun s => if s = "bad" then Except.error "boom" else Except.ok 7)
      [CacheRow.mk "7132623300" "bad" 5] "7132623300" 6 86400 = none :=
  cache_corrupt_payload_is_miss _ _ _ 6 86400 (CacheRow.mk "7132623300" "bad" 5)
    "boom" (by simp [List.find?]) (by simp)

/-- C10: the two expiry paths agree at the ttl boundary.  For a stored
entry whose age is exactly the ttl: `Cache.get` still returns it (the
check at cache.py line 90 is `now - timestamp <= ttl`), `Cache.clear_expired`
does not delete it (the deletion at line 171 requires
`timestamp < now - ttl`), and, in general, any entry served by `get` at
some instant survives `clear_expired` run at the same instant with the
same ttl. -/
theorem cache_ttl_boundary_agreement {α : Type}
    (dec : String → Except String α) (store : CacheStore) (key : String)
    (now ttl : ℚ) (row : CacheRow) (v : α)
    (hfind : store.find? (fun r => r.key = key) = some row)
    (hb : now - row.timestamp = ttl)
    (hdec : dec row.payload = Except.ok v) :
    Cache.get dec store key now ttl = some v ∧
    (Cache.clear_expired store now ttl).1.find? (fun r => r.key = key) = some row ∧
    (∀ w : α, Cache.get dec store key now ttl = some w →
      (Cache.clear_expired store now ttl).1.find? (fun r => r.key = key) = some row) := by
  have hkept : (fun r : CacheRow => decide ¬ r.timestamp < now - ttl) row = true := by
    simp only [decide_eq_true_eq, not_lt]
    linarith [hb]
  refine ⟨?_, ?_, ?_⟩
  · simp only [Cache.get, hfind, hdec]
    rw [if_pos (by linarith [hb])]
  · exact find?_of_filter_kept store _ _ row hfind hkept
  · intro w hw
    exact find?_of_filter_kept store _ _ row hfind hkept

/-- C10 (witness): a concrete entry aged exactly one ttl. -/
theorem cache_ttl_boundary_agreement_witness :
    Cache.get (fun s => if s = "ok" then Except.ok 7 else Except.error "bad")
      [CacheRow.mk "7132623300" "ok" 0] "7132623300" 86400 86400 = some 7 ∧
    (Cache.clear_expired [CacheRow.mk "7132623300" "ok" 0] 86400 86400).1.find?
      (fun r => r.key = "7132623300") = some (CacheRow.mk "7132623300" "ok" 0) ∧
    (∀ w : ℕ,
      Cache.get (fun s => if s = "ok" then Except.ok 7 else Except.error "bad")
        [CacheRow.mk "7132623300" "ok" 0] "7132623300" 86400 86400 = some w →
      (Cache.clear_expired [CacheRow.mk "7132623300" "ok" 0] 86400 86400).1.find?
        (fun r => r.key = "7132623300") = some (CacheRow.mk "7132623300" "ok" 0)) :=
  cache_ttl_boundary_agreement _ _ _ 86400 86400 (CacheRow.mk "7132623300" "ok" 0)
    7 (by simp [List.find?]) (by norm_num) (by simp)

/-- C8: one execution of the `_check_rate_limit` critical section keeps the
token count within `[0, capacity]`: the refill is capped at the capacity
(and is nonnegative given a nonnegative starting count and non-decreasing
clock), and a token is consumed only from a count of at least one (after
the wait branch pins the count to one), so the count after the section is
again in `[0, capacity]`. -/
theorem rate_limit_tokens_bounded (cap window : ℚ) (st : RateBudget) (now : ℚ)
    (hcap : 1 ≤ cap) (hwin : 0 < window) (h0 : 0 ≤ st.tokens)
    (h1 : st.tokens ≤ cap) (hnow : st.lastCheck ≤ now) :
    (0 ≤ rateRefill cap window st now ∧ rateRefill cap window st now ≤ cap) ∧
    0 ≤ (check_rate_limit cap window st now).1.tokens ∧
    (check_rate_limit cap window st now).1.tokens ≤ cap := by
  have hr : 0 ≤ cap / window := by positivity
  have he : 0 ≤ now - st.lastCheck := by linarith
  have hx : 0 ≤ st.tokens + (now - st.lastCheck) * (cap / window) := by positivity
  have hre0 : 0 ≤ rateRefill cap window st now := by
    rw [rateRefill]
    exact le_min (by linarith) hx
  have hre1 : rateRefill cap window st now ≤ cap := min_le_left _ _
  refine ⟨⟨hre0, hre1⟩, ?_, ?_⟩ <;> rw [check_rate_limit]
  · by_cases hlt : rateRefill cap window st now < 1
    · rw [if_pos hlt]
      norm_num
    · rw [if_neg hlt]
      have := not_lt.mp hlt
      dsimp only
      linarith
  · by_cases hlt : rateRefill cap window st now < 1
    · rw [if_pos hlt]
      dsimp only
      linarith
    · rw [if_neg hlt]
      dsimp only
      linarith

/-- C8 (witness): the invariant instantiated at the constants of
telnyx_api.py / twilio_api.py (`capacity = RATE_LIMIT_REQUESTS = 10`,
window 1s), a full bucket, and a call half a second later. -/
theorem rate_limit_tokens_bounded_witness :
    (0 ≤ rateRefill RATE_LIMIT_REQUESTS RATE_LIMIT_WINDOW
        (RateBudget.mk RATE_LIMIT_REQUESTS 0) (1 / 2) ∧
      rateRefill RATE_LIMIT_REQUESTS RATE_LIMIT_WINDOW
        (RateBudget.mk RATE_LIMIT_REQUESTS 0) (1 / 2) ≤ RATE_LIMIT_REQUESTS) ∧
    0 ≤ (check_rate_limit RATE_LIMIT_REQUESTS RATE_LIMIT_WINDOW
        (RateBudget.mk RATE_LIMIT_REQUESTS 0) (1 / 2)).1.tokens ∧
    (check_rate_limit RATE_LIMIT_REQUESTS RATE_LIMIT_WINDOW
        (RateBudget.mk RATE_LIMIT_REQUESTS 0) (1 / 2)).1.tokens ≤
      RATE_LIMIT_REQUESTS :=
  rate_limit_tokens_bounded RATE_LIMIT_REQUESTS RATE_LIMIT_WINDOW
    (RateBudget.mk RATE_LIMIT_REQUESTS 0) (1 / 2)
    (by norm_num [RATE_LIMIT_REQUESTS]) (by norm_num [RATE_LIMIT_WINDOW])
    (by norm_num [RATE_LIMIT_REQUESTS]) (by norm_num [RATE_LIMIT_REQUESTS])
    (by norm_num)

/-- C4: automatic provider resolution walks the priority order and returns
the first configured provider; when no id of the priority order is
configured but some registered provider is, it falls back to a configured
provider, without raising.  Concretely: with priority `[B, A]` and both
configured, `B` is resolved; with `B` no longer configured, `A` is
resolved. -/
theorem get_provider_by_priority_resolution (st st2 : RegistryState)
    (pre post : List String) (p : String)
    (h1 : ProviderRegistry.get_priority st = pre ++ p :: post)
    (h2 : ∀ q ∈ pre, (ProviderRegistry.configured_ids st).contains q = false)
    (h3 : (ProviderRegistry.configured_ids st).contains p = true)
    (h4 : ProviderRegistry.configured_ids st2 ≠ [])
    (h5 : ∀ q ∈ ProviderRegistry.get_priority st2,
            (ProviderRegistry.configured_ids st2).contains q = false) :
    ProviderRegistry.get_provider_by_priority st = some p ∧
    (∃ r, ProviderRegistry.get_provider_by_priority st2 = some r ∧
          r ∈ ProviderRegistry.configured_ids st2) ∧
    ProviderRegistry.get_provider_by_priority
      (RegistryState.mk ["A", "B"] ["B", "A"] (fun _ => true)) = some "B" ∧
    ProviderRegistry.get_provider_by_priority
      (RegistryState.mk ["A", "B"] ["B", "A"] (fun pid => pid == "A")) =
      some "A" := by
  refine ⟨?_, ?_, by decide, by decide⟩
  · have hne : ProviderRegistry.configured_ids st ≠ [] := by
      intro hnil
      rw [hnil] at h3
      simp at h3
    rw [ProviderRegistry.get_provider_by_priority, if_neg (by simpa using hne),
      h1]
    have hpre : pre.find?
        (fun pid => (ProviderRegistry.configured_ids st).contains pid) = none := by
      rw [List.find?_eq_none]
      intro x hx
      simpa using h2 x hx
    rw [List.find?_append, hpre, Option.none_or,
      List.find?_cons_of_pos _ (by simpa using h3)]
  · rw [ProviderRegistry.get_provider_by_priority, if_neg (by simpa using h4)]
    have hall : (ProviderRegistry.get_priority st2).find?
        (fun pid => (ProviderRegistry.configured_ids st2).contains pid) = none := by
      rw [List.find?_eq_none]
      intro x hx
      simpa using h5 x hx
    rw [hall]
    cases hc : ProviderRegistry.configured_ids st2 with
    | nil => exact absurd hc h4
    | cons c cs => exact ⟨c, rfl, List.mem_cons_self c cs⟩

/-- C4 (witness): priority `["B", "A"]` over registered providers
`["A", "B"]`, once with both configured and once with only `A`
configured, plus a fallback scenario whose priority list matches no
configured provider. -/
theorem get_provider_by_priority_resolution_witness :
    ProviderRegistry.get_provider_by_priority
      (RegistryState.mk ["A", "B"] ["B", "A"] (fun _ => true)) = some "B" ∧
    (∃ r, ProviderRegistry.get_provider_by_priority
        (RegistryState.mk ["A", "B"] ["C"] (fun pid => pid == "A")) = some r ∧
      r ∈ ProviderRegistry.configured_ids
        (RegistryState.mk ["A", "B"] ["C"] (fun pid => pid == "A"))) ∧
    ProviderRegistry.get_provider_by_priority
      (RegistryState.mk ["A", "B"] ["B", "A"] (fun _ => true)) = some "B" ∧
    ProviderRegistry.get_provider_by_priority
      (RegistryState.mk ["A", "B"] ["B", "A"] (fun pid => pid == "A")) =
      some "A" := by
  have h := get_provider_by_priority_resolution
    (RegistryState.mk ["A", "B"] ["B", "A"] (fun _ => true))
    (RegistryState.mk ["A", "B"] ["C"] (fun pid => pid == "A"))
    [] ["A"] "B" (by decide) (by decide) (by decide) (by decide) (by decide)
  exact ⟨h.1, h.2.1, h.2.2.1, h.2.2.2⟩

/-- C9 (counterexample): setting a priority list containing the
unregistered id `"bogus"` fails with `ValueError` (provider.py line 466),
not with the `ConfigurationError` class the claim names — the two are
distinct error kinds. -/
theorem set_priority_valueerror_counterexample :
    ProviderRegistry.set_priority
      (RegistryState.mk ["telnyx", "twilio"] ["telnyx"] (fun _ => true))
      ["telnyx", "bogus"] =
      (RegistryState.mk ["telnyx", "twilio"] ["telnyx"] (fun _ => true),
       some PyErr.valueError) ∧
    PyErr.valueError ≠ PyErr.configurationError := by
  constructor
  · rw [ProviderRegistry.set_priority, if_neg (by decide)]
  · decide

/-- C9 (amended): setting the priority order with a list containing an id
not registered in the registry fails at set time — with a `ValueError`
rather than a `ConfigurationError` — and leaves the stored priority order
unchanged; the unknown id is never silently ignored or dropped.  The
provider-manager wrapper `set_provider_priority` catches the `ValueError`
and reports `False`, also leaving the registry untouched. -/
theorem set_priority_unknown_id_rejected (st : RegistryState)
    (l : List String) (pid : String) (hmem : pid ∈ l)
    (hunknown : st.providers.contains pid = false) :
    ProviderRegistry.set_priority st l = (st, some PyErr.valueError) ∧
    (ProviderRegistry.set_priority st l).1.priority = st.priority ∧
    set_provider_priority st l = (st, false) := by
  have hfl : pid ∈ l.filter (fun q => !(st.providers.contains q)) := by
    rw [List.mem_filter]
    exact ⟨hmem, by simpa using hunknown⟩
  have hne : ¬ (l.filter (fun q => !(st.providers.contains q))).isEmpty = true := by
    intro h
    rw [List.isEmpty_iff] at h
    rw [h] at hfl
    simp at hfl
  refine ⟨?_, ?_, ?_⟩
  · rw [ProviderRegistry.set_priority, if_neg hne]
  · rw [ProviderRegistry.set_priority, if_neg hne]
  · rw [set_provider_priority, ProviderRegistry.set_priority, if_neg hne]

/-- C9 (witness): the amended statement at a concrete registry. -/
theorem set_priority_unknown_id_rejected_witness :
    ProviderRegistry.set_priority
      (RegistryState.mk ["telnyx", "twilio"] ["telnyx"] (fun _ => true))
      ["telnyx", "bogus"] =
      (RegistryState.mk ["telnyx", "twilio"] ["telnyx"] (fun _ => true),
       some PyErr.valueError) ∧
    (ProviderRegistry.set_priority
      (RegistryState.mk ["telnyx", "twilio"] ["telnyx"] (fun _ => true))
      ["telnyx", "bogus"]).1.priority = ["telnyx"] ∧
    set_provider_priority
      (RegistryState.mk ["telnyx", "twilio"] ["telnyx"] (fun _ => true))
      ["telnyx", "bogus"] =
      (RegistryState.mk ["telnyx", "twilio"] ["telnyx"] (fun _ => true),
       false) :=
  set_priority_unknown_id_rejected
    (RegistryState.mk ["telnyx", "twilio"] ["telnyx"] (fun _ => true))
    ["telnyx", "bogus"] "bogus" (by decide) (by decide)

/-- C1 (counterexample): under a fake adapter counting invocations, a call
raising the retryable `RateLimitError` invokes the adapter zero times —
not the "at least one invocation plus retries" the claim requires — and a
call raising the non-retryable `AuthenticationError` also invokes it zero
times, not exactly once: `LookupService.lookup_number` raises
`AttributeError` at its first statement (the undefined
`TelnyxAPI._format_phone_number`) before any adapter call, and contains no
retry loop at all. -/
theorem lookup_retry_counterexample :
    (LookupService.lookup_number
      (LookupServiceState.mk true [] (fun _ => Except.error "") true
        (fun _ => Except.error PyErr.rateLimitError)) "7132623300" 0 86400).2
      = 0 ∧
    (LookupService.lookup_number
      (LookupServiceState.mk true [] (fun _ => Except.error "") true
        (fun _ => Except.error PyErr.authenticationError)) "7132623300" 0
      86400).2 ≠ 1 := by
  exact ⟨rfl, by decide⟩

/-- C1 (amended): the orchestrator performs no classified-error retries —
as written it never reaches the adapter at all: every `lookup_number` call
raises `AttributeError` after zero adapter invocations, for every adapter
behaviour.  The only retry mechanism in the code is the urllib3 `Retry`
strategy mounted by `TelnyxAPI._create_session`, bounded by
`MAX_RETRIES = 3` with exponential backoff, which retries exactly on the
HTTP statuses 429/500/502/503/504 and not on 401/403/404. -/
theorem lookup_no_retry_session_forcelist (st : LookupServiceState)
    (phone : String) (now ttl : ℚ) :
    (LookupService.lookup_number st phone now ttl).2 = 0 ∧
    (LookupService.lookup_number st phone now ttl).1 =
      Except.error PyErr.attributeError ∧
    MAX_RETRIES = 3 ∧
    (429 ∈ RETRY_STATUS_FORCELIST ∧ 500 ∈ RETRY_STATUS_FORCELIST ∧
     502 ∈ RETRY_STATUS_FORCELIST ∧ 503 ∈ RETRY_STATUS_FORCELIST ∧
     504 ∈ RETRY_STATUS_FORCELIST) ∧
    401 ∉ RETRY_STATUS_FORCELIST ∧ 403 ∉ RETRY_STATUS_FORCELIST ∧
    404 ∉ RETRY_STATUS_FORCELIST := by
  rw [lookup_number_run]
  exact ⟨rfl, rfl, rfl, by decide, by decide, by decide, by decide⟩

/-- C2 (code_bug evaluation): at the failing input `"7132623300"` — with an
API key configured and an adapter that would succeed — the orchestrator
raises the unclassified `AttributeError` (undefined
`TelnyxAPI._format_phone_number`) instead of returning a result or a
classified error, and `batch_lookup` raises the unclassified `TypeError`
(its error-result constructor passes keyword arguments
`provider.LookupResult` does not accept).  No success-shaped value is
returned, but neither is the classified error the claim requires. -/
theorem lookup_failure_unclassified_eval :
    (LookupService.lookup_number
      (LookupServiceState.mk true [] (fun _ => Except.error "") true
        (fun n => Except.ok { phone_number := n })) "7132623300" 0 86400).1 =
      Except.error PyErr.attributeError ∧
    PyErr.isClassified PyErr.attributeError = false ∧
    (LookupService.batch_lookup
      (LookupServiceState.mk true [] (fun _ => Except.error "") true
        (fun n => Except.ok { phone_number := n })) ["7132623300"] 0 86400).1 =
      Except.error PyErr.typeError ∧
    PyErr.isClassified PyErr.typeError = false := by
  exact ⟨rfl, rfl, rfl, rfl⟩

/-- C3 (counterexample): a batch of two copies of the same number — with a
configured key and an adapter that would succeed — does not produce one
outcome per original input item: `list(set(numbers))` collapses the
duplicates to one element, and the run aborts with `TypeError` on the
first item (every `lookup_number` call raises, and the per-item error
handler's own `LookupResult(...)` construction raises), so no result list
is produced at all. -/
theorem batch_dedup_abort_counterexample :
    (LookupService.batch_lookup
      (LookupServiceState.mk false [] (fun _ => Except.error "") true
        (fun n => Except.ok { phone_number := n })) ["7132623300", "7132623300"] 0
      86400).1 = Except.error PyErr.typeError ∧
    uniqueNumbers ["7132623300", "7132623300"] = ["7132623300"] ∧
    ["7132623300", "7132623300"].length = 2 := by
  exact ⟨rfl, by decide, rfl⟩

/-- C3 (amended): `batch_lookup` iterates over the de-duplicated input
(one loop iteration per unique number, not per original item) and, as
written, any nonempty batch aborts on its first item with `TypeError`
(the per-item error handler's `LookupResult` construction raises, and
nothing catches it), after zero adapter invocations; only the empty batch
returns a result list, the empty one. -/
theorem batch_lookup_aborts_typeerror (st : LookupServiceState)
    (numbers : List String) (now ttl : ℚ) (hconf : st.configured = true)
    (hne : numbers ≠ []) :
    LookupService.batch_lookup st numbers now ttl =
      (Except.error PyErr.typeError, 0) ∧
    LookupService.batch_lookup st [] now ttl = (Except.ok [], 0) := by
  constructor
  · rw [LookupService.batch_lookup, if_neg (by simp [hconf])]
    have huniq : uniqueNumbers numbers ≠ [] := by
      simpa [uniqueNumbers, List.dedup_eq_nil]
    cases h : uniqueNumbers numbers with
    | nil => exact absurd h huniq
    | cons n rest =>
      rw [batchLoop]
      rfl
  · rw [LookupService.batch_lookup, if_neg (by simp [hconf])]
    rfl

/-- C3 (witness): the amended statement at a concrete nonempty batch. -/
theorem batch_lookup_aborts_typeerror_witness :
    LookupService.batch_lookup
      (LookupServiceState.mk false [] (fun _ => Except.error "") true
        (fun n => Except.ok { phone_number := n })) ["7132623300"] 0 86400 =
      (Except.error PyErr.typeError, 0) ∧
    LookupService.batch_lookup
      (LookupServiceState.mk false [] (fun _ => Except.error "") true
        (fun n => Except.ok { phone_number := n })) [] 0 86400 =
      (Except.ok [], 0) :=
  batch_lookup_aborts_typeerror
    (LookupServiceState.mk false [] (fun _ => Except.error "") true
      (fun n => Except.ok { phone_number := n })) ["7132623300"] 0 86400 rfl
    (by decide)

/-- C7: for every valid 10-digit NANP number (ten digit characters
`a`…`j`), `format_phone_number` maps each supported input formatting —
plain, parentheses (with or without a space), dashes, dots, spaces,
leading `+1`, leading `1`, and `1-` with dashes — to the same canonical
10-digit key, and it is idempotent: the already-canonical number maps to
itself.  Likewise `validate_phone_number` maps the same formats to the
canonical E.164 key `+1` ++ digits and is idempotent on that canonical
form. -/
theorem phone_normalization_canonical_idempotent
    (a b c d e f g h i j : Char)
    (ha : a.isDigit = true) (hb : b.isDigit = true) (hc : c.isDigit = true)
    (hd : d.isDigit = true) (he : e.isDigit = true) (hf : f.isDigit = true)
    (hg : g.isDigit = true) (hh : h.isDigit = true) (hi : i.isDigit = true)
    (hj : j.isDigit = true) :
    format_phone_number [a, b, c, d, e, f, g, h, i, j] =
      some [a, b, c, d, e, f, g, h, i, j] ∧
    format_phone_number ['(', a, b, c, ')', ' ', d, e, f, '-', g, h, i, j] =
      some [a, b, c, d, e, f, g, h, i, j] ∧
    format_phone_number ['(', a, b, c, ')', d, e, f, '-', g, h, i, j] =
      some [a, b, c, d, e, f, g, h, i, j] ∧
    format_phone_number [a, b, c, '-', d, e, f, '-', g, h, i, j] =
      some [a, b, c, d, e, f, g, h, i, j] ∧
    format_phone_number [a, b, c, '.', d, e, f, '.', g, h, i, j] =
      some [a, b, c, d, e, f, g, h, i, j] ∧
    format_phone_number [a, b, c, ' ', d, e, f, ' ', g, h, i, j] =
      some [a, b, c, d, e, f, g, h, i, j] ∧
    format_phone_number ('+' :: '1' :: [a, b, c, d, e, f, g, h, i, j]) =
      some [a, b, c, d, e, f, g, h, i, j] ∧
    format_phone_number ('1' :: [a, b, c, d, e, f, g, h, i, j]) =
      some [a, b, c, d, e, f, g, h, i, j] ∧
    format_phone_number ['1', '-', a, b, c, '-', d, e, f, '-', g, h, i, j] =
      some [a, b, c, d, e, f, g, h, i, j] ∧
    validate_phone_number [a, b, c, d, e, f, g, h, i, j] =
      some ('+' :: '1' :: [a, b, c, d, e, f, g, h, i, j]) ∧
    validate_phone_number ('+' :: '1' :: [a, b, c, d, e, f, g, h, i, j]) =
      some ('+' :: '1' :: [a, b, c, d, e, f, g, h, i, j]) ∧
    validate_phone_number ['(', a, b, c, ')', ' ', d, e, f, '-', g, h, i, j] =
      some ('+' :: '1' :: [a, b, c, d, e, f, g, h, i, j]) := by
  refine ⟨?_, ?_, ?_, ?_, ?_, ?_, ?_, ?_, ?_, ?_, ?_, ?_⟩ <;>
    simp [format_phone_number, validate_phone_number, stripSpacesDots,
      pyStrip, pyStrip.pyStripEnd, dropLeadingPlus, matchPat1, matchPat2,
      matchPat3, matchPat4, matchPat5, matchPat6, matchPat7, reqSep6,
      digitsFallback, optChar, optSep, takeDigits, List.filter_cons,
      List.dropWhile, ws_of_digit, digit_ne_space, digit_ne_dot,
      digit_ne_plus, digit_ne_lparen, digit_ne_rparen, digit_ne_dash,
      ha, hb, hc, hd, he, hf, hg, hh, hi, hj]

/-- C7 (witness): the normalization equations at the concrete number
713-262-3300 (the repository's own test number). -/
theorem phone_normalization_witness :
    format_phone_number ['7', '1', '3', '2', '6', '2', '3', '3', '0', '0'] =
      some ['7', '1', '3', '2', '6', '2', '3', '3', '0', '0'] ∧
    format_phone_number
        ['(', '7', '1', '3', ')', ' ', '2', '6', '2', '-', '3', '3', '0', '0'] =
      some ['7', '1', '3', '2', '6', '2', '3', '3', '0', '0'] ∧
    format_phone_number
        ['(', '7', '1', '3', ')', '2', '6', '2', '-', '3', '3', '0', '0'] =
      some ['7', '1', '3', '2', '6', '2', '3', '3', '0', '0'] ∧
    format_phone_number
        ['7', '1', '3', '-', '2', '6', '2', '-', '3', '3', '0', '0'] =
      some ['7', '1', '3', '2', '6', '2', '3', '3', '0', '0'] ∧
    format_phone_number
        ['7', '1', '3', '.', '2', '6', '2', '.', '3', '3', '0', '0'] =
      some ['7', '1', '3', '2', '6', '2', '3', '3', '0', '0'] ∧
    format_phone_number
        ['7', '1', '3', ' ', '2', '6', '2', ' ', '3', '3', '0', '0'] =
      some ['7', '1', '3', '2', '6', '2', '3', '3', '0', '0'] ∧
    format_phone_number
        ('+' :: '1' :: ['7', '1', '3', '2', '6', '2', '3', '3', '0', '0']) =
      some ['7', '1', '3', '2', '6', '2', '3', '3', '0', '0'] ∧
    format_phone_number
        ('1' :: ['7', '1', '3', '2', '6', '2', '3', '3', '0', '0']) =
      some ['7', '1', '3', '2', '6', '2', '3', '3', '0', '0'] ∧
    format_phone_number
        ['1', '-', '7', '1', '3', '-', '2', '6', '2', '-', '3', '3', '0', '0'] =
      some ['7', '1', '3', '2', '6', '2', '3', '3', '0', '0'] ∧
    validate_phone_number ['7', '1', '3', '2', '6', '2', '3', '3', '0', '0'] =
      some ('+' :: '1' :: ['7', '1', '3', '2', '6', '2', '3', '3', '0', '0']) ∧
    validate_phone_number
        ('+' :: '1' :: ['7', '1', '3', '2', '6', '2', '3', '3', '0', '0']) =
      some ('+' :: '1' :: ['7', '1', '3', '2', '6', '2', '3', '3', '0', '0']) ∧
    validate_phone_number
        ['(', '7', '1', '3', ')', ' ', '2', '6', '2', '-', '3', '3', '0', '0'] =
      some ('+' :: '1' :: ['7', '1', '3', '2', '6', '2', '3', '3', '0', '0']) :=
  phone_normalization_canonical_idempotent '7' '1' '3' '2' '6' '2' '3' '3'
    '0' '0' (by decide) (by decide) (by decide) (by decide) (by decide)
    (by decide) (by decide) (by decide) (by decide) (by decide)
